import Mathlib

/-!
# ForwardRenderer (source/common/systems/forward-renderer.cpp)

A shallow embedding of `our::ForwardRenderer`: `initialize`, `destroy` and
`render` become functions on an explicit renderer state that return the
sequence of calls made to the collaborators (OpenGL, meshes, shaders,
textures, samplers, materials).  Scalars are rationals: arithmetic is exact.
-/

namespace our

/-! ## glm vectors and matrices -/

/-- The type glm::ivec2. -/
structure IVec2 where
  x : Int
  y : Int
deriving DecidableEq, Repr

/-- The type glm::vec3. -/
structure Vec3 where
  x : ℚ
  y : ℚ
  z : ℚ
deriving DecidableEq, Repr

/-- The type glm::vec4. -/
structure Vec4 where
  x : ℚ
  y : ℚ
  z : ℚ
  w : ℚ
deriving DecidableEq, Repr

/-- The type glm::mat4: four columns (column-major, as glm stores and constructs it). -/
structure Mat4 where
  c0 : Vec4
  c1 : Vec4
  c2 : Vec4
  c3 : Vec4
deriving DecidableEq, Repr

/-- Conversion glm::vec3(vec4): the first three components. -/
def Vec4.xyz (v : Vec4) : Vec3 := ⟨v.x, v.y, v.z⟩

/-- Component-wise sum of two glm::vec4. -/
def Vec4.add (a b : Vec4) : Vec4 := ⟨a.x + b.x, a.y + b.y, a.z + b.z, a.w + b.w⟩

/-- Product of a glm::vec4 with a scalar. -/
def Vec4.scale (a : Vec4) (s : ℚ) : Vec4 := ⟨a.x * s, a.y * s, a.z * s, a.w * s⟩

/-- The function glm::dot on vec3. -/
def dot (a b : Vec3) : ℚ := a.x * b.x + a.y * b.y + a.z * b.z

/-- Product mat4 * vec4: the combination of the columns weighted by the vector. -/
def Mat4.mulVec (m : Mat4) (v : Vec4) : Vec4 :=
  (((m.c0.scale v.x).add (m.c1.scale v.y)).add (m.c2.scale v.z)).add (m.c3.scale v.w)

/-- Product mat4 * mat4: column j of the product is the left factor applied to column j of the right. -/
def Mat4.mul (a b : Mat4) : Mat4 :=
  ⟨a.mulVec b.c0, a.mulVec b.c1, a.mulVec b.c2, a.mulVec b.c3⟩

/-- The matrix glm::mat4(1.0f). -/
def Mat4.identity : Mat4 :=
  ⟨⟨1, 0, 0, 0⟩, ⟨0, 1, 0, 0⟩, ⟨0, 0, 1, 0⟩, ⟨0, 0, 0, 1⟩⟩

/-- The function glm::translate(m, v): the last column becomes m[0]*v[0] + m[1]*v[1] + m[2]*v[2] + m[3]. -/
def translate (m : Mat4) (v : Vec3) : Mat4 :=
  { m with c3 := (((m.c0.scale v.x).add (m.c1.scale v.y)).add (m.c2.scale v.z)).add m.c3 }

/-! ## OpenGL enumerants used by the renderer -/

/-- The OpenGL constants named in the source file. -/
inductive GLenum where
  | GL_VERTEX_SHADER
  | GL_FRAGMENT_SHADER
  | GL_FRONT
  | GL_LEQUAL
  | GL_TEXTURE_MIN_FILTER
  | GL_TEXTURE_MAG_FILTER
  | GL_TEXTURE_WRAP_S
  | GL_TEXTURE_WRAP_T
  | GL_LINEAR
  | GL_REPEAT
  | GL_CLAMP_TO_EDGE
  | GL_DRAW_FRAMEBUFFER
  | GL_RGBA8
  | GL_DEPTH_COMPONENT24
  | GL_COLOR_ATTACHMENT0
  | GL_DEPTH_ATTACHMENT
  | GL_TEXTURE_2D
  | GL_TRIANGLES
  | other (code : Nat)
deriving DecidableEq, Repr

/-- Light type tag DIRECTIONAL. -/
def DIRECTIONAL : Int := 0
/-- Light type tag POINT. -/
def POINT : Int := 1
/-- Light type tag SPOT. -/
def SPOT : Int := 2

/-! ## Materials, components, entities -/

/-- The fields of PipelineState that the renderer writes. -/
structure PipelineState where
  faceCullingEnabled : Bool
  faceCullingCulledFace : GLenum
  depthTestingEnabled : Bool
  depthTestingFunction : GLenum
  depthMask : Bool
deriving DecidableEq, Repr

/-- Base class Material: pointers are allocation identifiers. -/
structure Material where
  pipelineState : PipelineState
  shader : Nat
  transparent : Bool
  lighted : Bool
deriving DecidableEq, Repr

/-- Class TexturedMaterial (through TintedMaterial). -/
structure TexturedMaterial extends Material where
  tint : Vec4
  texture : Nat
  sampler : Nat
  alphaThreshold : ℚ
deriving DecidableEq, Repr

/-- A non-null TexturedMaterial pointer: the allocation it names and the object stored there. -/
structure TexturedMaterialPtr where
  addr : Nat
  obj : TexturedMaterial
deriving DecidableEq, Repr

/-- Component CameraComponent: the two matrices the renderer asks it for. -/
structure CameraComponent where
  getProjectionMatrix : IVec2 → Mat4
  getViewMatrix : Mat4

/-- Component MeshRendererComponent. -/
structure MeshRendererComponent where
  mesh : Nat
  material : Material
deriving DecidableEq, Repr

/-- The part of Transform that the renderer reads. -/
structure Transform where
  position : Vec3
deriving DecidableEq, Repr

/-- An entity as the renderer sees it: its local transform, the matrix returned by
getLocalToWorldMatrix() (which composes the ancestors' transforms with the local one), and the
results of getComponent for the two component types. -/
structure Entity where
  localTransform : Transform
  getLocalToWorldMatrix : Mat4
  camera : Option CameraComponent
  meshRenderer : Option MeshRendererComponent

/-- The entities of a World, in the order getEntities() iterates them. -/
abbrev World := List Entity

/-- A non-null CameraComponent pointer together with getOwner(). -/
structure CameraRef where
  component : CameraComponent
  owner : Entity

/-- Struct RenderCommand. -/
structure RenderCommand where
  localToWorld : Mat4
  center : Vec3
  mesh : Nat
  material : Material
deriving DecidableEq, Repr

/-! ## Calls to collaborators -/

/-- A value passed to ShaderProgram::set. The inverse-transpose and the angles in radians are
kept as expressions. -/
inductive UniformValue where
  | mat4 (m : Mat4)
  | inverseTranspose (m : Mat4)
  | vec3 (v : Vec3)
  | vec2Radians (degrees0 degrees1 : ℚ)
  | int (i : Int)
deriving DecidableEq, Repr

/-- One call made by the renderer to a collaborator. A creating call carries the identifier of
the object it returns. -/
inductive Call where
  | meshSphere (segments : IVec2) (result : Nat)
  | newShaderProgram (result : Nat)
  | shaderAttach (shader : Nat) (file : String) (type : GLenum)
  | shaderLink (shader : Nat)
  | loadImage (file : String) (generateMipmap : Bool) (result : Nat)
  | textureEmpty (format : GLenum) (size : IVec2) (result : Nat)
  | newSampler (result : Nat)
  | samplerSet (sampler : Nat) (parameter value : GLenum)
  | newTexturedMaterial (result : Nat)
  | glGenFramebuffers (result : Nat)
  | glGenVertexArrays (result : Nat)
  | glFramebufferTexture2D (target attachment textarget : GLenum) (texture : Nat) (level : Int)
  | deleteMesh (p : Nat)
  | deleteShaderProgram (p : Nat)
  | deleteTexture (p : Nat)
  | deleteSampler (p : Nat)
  | deleteTexturedMaterial (p : Nat)
  | glDeleteFramebuffers (name : Nat)
  | glDeleteVertexArrays (name : Nat)
  | glViewport (x y width height : Int)
  | glClearColor (r g b a : ℚ)
  | glClearDepth (d : ℚ)
  | glDepthMask (flag : Bool)
  | glColorMask (r g b a : Bool)
  | glBindFramebuffer (target : GLenum) (framebuffer : Nat)
  | glClear (colorBufferBit depthBufferBit : Bool)
  | materialSetup (m : Material)
  | texturedMaterialSetup (m : TexturedMaterial)
  | shaderSet (shader : Nat) (name : String) (value : UniformValue)
  | meshDraw (mesh : Nat)
  | glBindVertexArray (array : Nat)
  | glDrawArrays (mode : GLenum) (first count : Int)
deriving DecidableEq, Repr

/-! ## The renderer -/

/-- The data members of ForwardRenderer. -/
structure ForwardRenderer where
  windowSize : IVec2
  opaqueCommands : List RenderCommand
  transparentCommands : List RenderCommand
  lightedCommands : List RenderCommand
  skySphere : Nat
  skyMaterial : Option TexturedMaterialPtr
  postprocessFrameBuffer : Nat
  postProcessVertexArray : Nat
  colorTarget : Nat
  depthTarget : Nat
  postprocessMaterial : Option TexturedMaterialPtr
deriving DecidableEq, Repr

/-- The configuration document: the two keys the renderer looks up. -/
structure Config where
  sky : Option String
  postprocess : Option String
deriving DecidableEq, Repr

/-! ### initialize -/

/-- The body of the first conditional of initialize (the key "sky" is present, with value
skyTextureFile). The argument blank stands for a default-constructed TexturedMaterial, whose
pipelineState is a default-constructed PipelineState. -/
def initializeSky (blank : TexturedMaterial) (self : ForwardRenderer) (fresh : Nat)
    (skyTextureFile : String) : ForwardRenderer × Nat × List Call :=
  let skySphere := fresh
  let skyShader := fresh + 1
  let skyPipelineState : PipelineState :=
    { blank.pipelineState with
      faceCullingEnabled := true
      faceCullingCulledFace := GLenum.GL_FRONT
      depthTestingEnabled := true
      depthTestingFunction := GLenum.GL_LEQUAL }
  let skyTexture := fresh + 2
  let skySampler := fresh + 3
  let skyMaterial : TexturedMaterialPtr :=
    { addr := fresh + 4
      obj :=
        { blank with
          shader := skyShader
          texture := skyTexture
          sampler := skySampler
          pipelineState := skyPipelineState
          tint := ⟨1, 1, 1, 1⟩
          alphaThreshold := 1
          transparent := false } }
  ({ self with skySphere := skySphere, skyMaterial := some skyMaterial },
   fresh + 5,
   [ Call.meshSphere ⟨16, 16⟩ skySphere,
     Call.newShaderProgram skyShader,
     Call.shaderAttach skyShader "assets/shaders/textured.vert" GLenum.GL_VERTEX_SHADER,
     Call.shaderAttach skyShader "assets/shaders/textured.frag" GLenum.GL_FRAGMENT_SHADER,
     Call.shaderLink skyShader,
     Call.loadImage skyTextureFile false skyTexture,
     Call.newSampler skySampler,
     Call.samplerSet skySampler GLenum.GL_TEXTURE_MIN_FILTER GLenum.GL_LINEAR,
     Call.samplerSet skySampler GLenum.GL_TEXTURE_MAG_FILTER GLenum.GL_LINEAR,
     Call.samplerSet skySampler GLenum.GL_TEXTURE_WRAP_S GLenum.GL_REPEAT,
     Call.samplerSet skySampler GLenum.GL_TEXTURE_WRAP_T GLenum.GL_CLAMP_TO_EDGE,
     Call.newTexturedMaterial skyMaterial.addr ])

/-- The body of the second conditional of initialize (the key "postprocess" is present, with
value fragmentFile). -/
def initializePostprocess (blank : TexturedMaterial) (self : ForwardRenderer) (fresh : Nat)
    (windowSize : IVec2) (fragmentFile : String) : ForwardRenderer × Nat × List Call :=
  let postprocessFrameBuffer := fresh
  let colorTarget := fresh + 1
  let depthTarget := fresh + 2
  let postProcessVertexArray := fresh + 3
  let postprocessSampler := fresh + 4
  let postprocessShader := fresh + 5
  let postprocessMaterial : TexturedMaterialPtr :=
    { addr := fresh + 6
      obj :=
        { blank with
          shader := postprocessShader
          texture := colorTarget
          sampler := postprocessSampler
          pipelineState := { blank.pipelineState with depthMask := false } } }
  ({ self with
      postprocessFrameBuffer := postprocessFrameBuffer
      colorTarget := colorTarget
      depthTarget := depthTarget
      postProcessVertexArray := postProcessVertexArray
      postprocessMaterial := some postprocessMaterial },
   fresh + 7,
   [ Call.glGenFramebuffers postprocessFrameBuffer,
     Call.glBindFramebuffer GLenum.GL_DRAW_FRAMEBUFFER postprocessFrameBuffer,
     Call.textureEmpty GLenum.GL_RGBA8 windowSize colorTarget,
     Call.textureEmpty GLenum.GL_DEPTH_COMPONENT24 windowSize depthTarget,
     Call.glFramebufferTexture2D GLenum.GL_DRAW_FRAMEBUFFER GLenum.GL_COLOR_ATTACHMENT0
       GLenum.GL_TEXTURE_2D colorTarget 0,
     Call.glFramebufferTexture2D GLenum.GL_DRAW_FRAMEBUFFER GLenum.GL_DEPTH_ATTACHMENT
       GLenum.GL_TEXTURE_2D depthTarget 0,
     Call.glBindFramebuffer GLenum.GL_DRAW_FRAMEBUFFER 0,
     Call.glGenVertexArrays postProcessVertexArray,
     Call.newSampler postprocessSampler,
     Call.samplerSet postprocessSampler GLenum.GL_TEXTURE_MIN_FILTER GLenum.GL_LINEAR,
     Call.samplerSet postprocessSampler GLenum.GL_TEXTURE_MAG_FILTER GLenum.GL_LINEAR,
     Call.samplerSet postprocessSampler GLenum.GL_TEXTURE_WRAP_S GLenum.GL_CLAMP_TO_EDGE,
     Call.samplerSet postprocessSampler GLenum.GL_TEXTURE_WRAP_T GLenum.GL_CLAMP_TO_EDGE,
     Call.newShaderProgram postprocessShader,
     Call.shaderAttach postprocessShader "assets/shaders/fullscreen.vert" GLenum.GL_VERTEX_SHADER,
     Call.shaderAttach postprocessShader fragmentFile GLenum.GL_FRAGMENT_SHADER,
     Call.shaderLink postprocessShader,
     Call.newTexturedMaterial postprocessMaterial.addr ])

/-- Method ForwardRenderer::initialize. The argument fresh is the next unused allocation
identifier; the result carries the updated renderer, the next unused identifier and the calls
made. -/
def initializeRenderer (blank : TexturedMaterial) (self : ForwardRenderer) (fresh : Nat)
    (windowSize : IVec2) (config : Config) : ForwardRenderer × Nat × List Call :=
  let self := { self with windowSize := windowSize }
  let afterSky : ForwardRenderer × Nat × List Call :=
    match config.sky with
    | some skyTextureFile => initializeSky blank self fresh skyTextureFile
    | none => (self, fresh, [])
  let afterPostprocess : ForwardRenderer × Nat × List Call :=
    match config.postprocess with
    | some fragmentFile =>
        initializePostprocess blank afterSky.1 afterSky.2.1 windowSize fragmentFile
    | none => (afterSky.1, afterSky.2.1, [])
  (afterPostprocess.1, afterPostprocess.2.1, afterSky.2.2 ++ afterPostprocess.2.2)

/-! ### destroy -/

/-- Method ForwardRenderer::destroy. No data member is written, so the renderer itself is
unchanged: the result is the calls made. -/
def destroy (self : ForwardRenderer) : List Call :=
  (match self.skyMaterial with
   | some skyMaterial =>
       [ Call.deleteMesh self.skySphere,
         Call.deleteShaderProgram skyMaterial.obj.shader,
         Call.deleteTexture skyMaterial.obj.texture,
         Call.deleteSampler skyMaterial.obj.sampler,
         Call.deleteTexturedMaterial skyMaterial.addr ]
   | none => []) ++
  (match self.postprocessMaterial with
   | some postprocessMaterial =>
       [ Call.glDeleteFramebuffers self.postprocessFrameBuffer,
         Call.glDeleteVertexArrays self.postProcessVertexArray,
         Call.deleteTexture self.colorTarget,
         Call.deleteTexture self.depthTarget,
         Call.deleteSampler postprocessMaterial.obj.sampler,
         Call.deleteShaderProgram postprocessMaterial.obj.shader,
         Call.deleteTexturedMaterial postprocessMaterial.addr ]
   | none => [])

/-! ### render -/

/-- Insertion of a, which came before every element of the list, into a list ordered by comp:
after the elements that compare less than a and before the first element that does not, so
that a stays ahead of the elements equivalent to it. -/
def insertSorted {α : Type} (comp : α → α → Bool) (a : α) : List α → List α
  | [] => [a]
  | b :: l => if comp b a then b :: insertSorted comp a l else a :: b :: l

/-- The call std::sort(begin, end, comp), realised by insertion that keeps equivalent elements
in their input order. The contract of std::sort is only that the result is a rearrangement of
the input in which no element is preceded by one it compares less than (the order of equivalent
elements is unspecified); where the keys are distinct this determines the result. -/
def stdSort {α : Type} (comp : α → α → Bool) : List α → List α
  | [] => []
  | a :: l => insertSorted comp a (stdSort comp l)

/-- The body of the loop over world->getEntities(): camera search and command classification. -/
def collectStep (acc : Option CameraRef × ForwardRenderer) (entity : Entity) :
    Option CameraRef × ForwardRenderer :=
  let camera : Option CameraRef :=
    match acc.1 with
    | some found => some found
    | none => entity.camera.map (fun component => ⟨component, entity⟩)
  let self := acc.2
  match entity.meshRenderer with
  | some meshRenderer =>
      let localToWorld := entity.getLocalToWorldMatrix
      let command : RenderCommand :=
        { localToWorld := localToWorld
          center := (localToWorld.mulVec ⟨0, 0, 0, 1⟩).xyz
          mesh := meshRenderer.mesh
          material := meshRenderer.material }
      if command.material.transparent then
        (camera, { self with transparentCommands := self.transparentCommands ++ [command] })
      else if command.material.lighted then
        (camera, { self with lightedCommands := self.lightedCommands ++ [command] })
      else
        (camera, { self with opaqueCommands := self.opaqueCommands ++ [command] })
  | none => (camera, self)

/-- The comparator passed to std::sort. -/
def transparentBefore (cameraForward : Vec3) (first second : RenderCommand) : Bool :=
  let fz := dot first.center cameraForward
  let sz := dot second.center cameraForward
  decide (fz < sz)

/-- The matrix alwaysBehindTransform, as glm::mat4 reads its sixteen arguments: column by column. -/
def alwaysBehindTransform : Mat4 :=
  ⟨⟨1, 0, 0, 0⟩,
   ⟨0, 1, 0, 0⟩,
   ⟨0, 0, 0, 0⟩,
   ⟨0, 0, 1, 1⟩⟩

/-- The matrix skyTransform of the sky pass for a camera at cameraPosition. -/
def skyTransform (VP : Mat4) (cameraPosition : Vec3) : Mat4 :=
  let M := translate Mat4.identity cameraPosition
  (alwaysBehindTransform.mul VP).mul M

/-- The calls of one iteration of the opaque loop (and of the transparent loop, whose body is
the same). -/
def drawCommand (VP : Mat4) (command : RenderCommand) : List Call :=
  [ Call.materialSetup command.material,
    Call.shaderSet command.material.shader "transform"
      (UniformValue.mat4 (VP.mul command.localToWorld)),
    Call.meshDraw command.mesh ]

/-- The calls of one iteration of the lighted loop. -/
def drawLighted (VP : Mat4) (camera : CameraRef) (command : RenderCommand) : List Call :=
  let M := command.localToWorld
  let eye := camera.owner.localTransform.position
  let shader := command.material.shader
  [ Call.materialSetup command.material,
    Call.shaderSet shader "M" (UniformValue.mat4 M),
    Call.shaderSet shader "M_IT" (UniformValue.inverseTranspose M),
    Call.shaderSet shader "VP" (UniformValue.mat4 VP),
    Call.shaderSet shader "eye" (UniformValue.vec3 eye),
    Call.shaderSet shader "sky.top" (UniformValue.vec3 ⟨3 / 10, 6 / 10, 1⟩),
    Call.shaderSet shader "sky.middle" (UniformValue.vec3 ⟨3 / 10, 3 / 10, 3 / 10⟩),
    Call.shaderSet shader "sky.bottom" (UniformValue.vec3 ⟨1 / 10, 1 / 10, 0⟩),
    Call.shaderSet shader "light_count" (UniformValue.int 3),
    Call.shaderSet shader "lights[0].type" (UniformValue.int DIRECTIONAL),
    Call.shaderSet shader "lights[0].direction" (UniformValue.vec3 ⟨1, 0, 0⟩),
    Call.shaderSet shader "lights[0].diffuse" (UniformValue.vec3 ⟨1, 2 / 10, 1 / 10⟩),
    Call.shaderSet shader "lights[0].specular" (UniformValue.vec3 ⟨1, 2 / 10, 1 / 10⟩),
    Call.shaderSet shader "lights[1].type" (UniformValue.int POINT),
    Call.shaderSet shader "lights[1].position" (UniformValue.vec3 ⟨0, 3 / 2, 0⟩),
    Call.shaderSet shader "lights[1].diffuse" (UniformValue.vec3 ⟨1, 2 / 10, 1 / 10⟩),
    Call.shaderSet shader "lights[1].specular" (UniformValue.vec3 ⟨1, 2 / 10, 1 / 10⟩),
    Call.shaderSet shader "lights[1].attenuation" (UniformValue.vec3 ⟨1, 0, 0⟩),
    Call.shaderSet shader "lights[2].type" (UniformValue.int SPOT),
    Call.shaderSet shader "lights[2].position" (UniformValue.vec3 ⟨1, 1, 0⟩),
    Call.shaderSet shader "lights[2].direction" (UniformValue.vec3 ⟨-1, 0, 0⟩),
    Call.shaderSet shader "lights[2].diffuse" (UniformValue.vec3 ⟨1, 9 / 10, 7 / 10⟩),
    Call.shaderSet shader "lights[2].specular" (UniformValue.vec3 ⟨1, 9 / 10, 7 / 10⟩),
    Call.shaderSet shader "lights[2].attenuation" (UniformValue.vec3 ⟨1, 0, 0⟩),
    Call.shaderSet shader "lights[2].cone_angles" (UniformValue.vec2Radians 10 11),
    Call.meshDraw command.mesh ]

/-- The calls of the sky pass. -/
def drawSky (self : ForwardRenderer) (VP : Mat4) (camera : CameraRef) : List Call :=
  match self.skyMaterial with
  | some skyMaterial =>
      let cameraPosition := (camera.owner.getLocalToWorldMatrix.mulVec ⟨0, 0, 0, 1⟩).xyz
      [ Call.texturedMaterialSetup skyMaterial.obj,
        Call.shaderSet skyMaterial.obj.shader "transform"
          (UniformValue.mat4 (skyTransform VP cameraPosition)),
        Call.meshDraw self.skySphere ]
  | none => []

/-- The calls that apply post-processing at the end of render. -/
def applyPostprocess (self : ForwardRenderer) : List Call :=
  match self.postprocessMaterial with
  | some postprocessMaterial =>
      [ Call.glBindFramebuffer GLenum.GL_DRAW_FRAMEBUFFER 0,
        Call.glBindVertexArray self.postProcessVertexArray,
        Call.texturedMaterialSetup postprocessMaterial.obj,
        Call.glDrawArrays GLenum.GL_TRIANGLES 0 3 ]
  | none => []

/-- The part of render that runs once a camera has been found. -/
def renderWithCamera (self : ForwardRenderer) (camera : CameraRef) : ForwardRenderer × List Call :=
  let cameraForward := (camera.owner.getLocalToWorldMatrix.mulVec ⟨0, 0, -1, 1⟩).xyz
  let self :=
    { self with
      transparentCommands := stdSort (transparentBefore cameraForward) self.transparentCommands }
  let VP := (camera.component.getProjectionMatrix self.windowSize).mul camera.component.getViewMatrix
  (self,
   [ Call.glViewport 0 0 self.windowSize.x self.windowSize.y,
     Call.glClearColor 0 0 0 1,
     Call.glClearDepth 1,
     Call.glDepthMask true,
     Call.glColorMask true true true true ] ++
   (match self.postprocessMaterial with
    | some _ => [Call.glBindFramebuffer GLenum.GL_DRAW_FRAMEBUFFER self.postprocessFrameBuffer]
    | none => []) ++
   [Call.glClear true true] ++
   self.opaqueCommands.flatMap (drawCommand VP) ++
   self.lightedCommands.flatMap (drawLighted VP camera) ++
   drawSky self VP camera ++
   self.transparentCommands.flatMap (drawCommand VP) ++
   applyPostprocess self)

/-- Method ForwardRenderer::render: the updated renderer and the calls made. -/
def render (self : ForwardRenderer) (world : World) : ForwardRenderer × List Call :=
  let cleared :=
    { self with opaqueCommands := [], transparentCommands := [], lightedCommands := [] }
  let collected := world.foldl collectStep (none, cleared)
  match collected.1 with
  | none => (collected.2, [])
  | some camera => renderWithCamera collected.2 camera

/-! ## Vocabulary of the statements -/

/-- The command that the loop of render builds for an entity with a mesh renderer. -/
def commandOf (entity : Entity) : Option RenderCommand :=
  entity.meshRenderer.map fun meshRenderer =>
    { localToWorld := entity.getLocalToWorldMatrix
      center := (entity.getLocalToWorldMatrix.mulVec ⟨0, 0, 0, 1⟩).xyz
      mesh := meshRenderer.mesh
      material := meshRenderer.material }

/-- One command per entity that has a mesh renderer, in traversal order. -/
def commandsOf (world : World) : List RenderCommand := world.filterMap commandOf

/-- The first camera in traversal order, with its owner. -/
def firstCamera (world : World) : Option CameraRef :=
  world.findSome? fun entity => entity.camera.map fun component => ⟨component, entity⟩

/-- Commands whose material is transparent. -/
def inTransparent (c : RenderCommand) : Bool := c.material.transparent

/-- Commands whose material is lighted and not transparent. -/
def inLighted (c : RenderCommand) : Bool := !c.material.transparent && c.material.lighted

/-- Commands whose material is neither transparent nor lighted. -/
def inOpaque (c : RenderCommand) : Bool := !c.material.transparent && !c.material.lighted

/-- The meshes drawn by a sequence of calls, in order. -/
def meshDraws (calls : List Call) : List Nat :=
  calls.filterMap fun call =>
    match call with
    | Call.meshDraw mesh => some mesh
    | _ => none

/-- The framebuffer bound for drawing after a sequence of calls, given the one bound before. -/
def boundFramebuffer (before : Nat) (calls : List Call) : Nat :=
  calls.foldl
    (fun bound call =>
      match call with
      | Call.glBindFramebuffer _ framebuffer => framebuffer
      | _ => bound)
    before

/-- The calls of n successive render calls on the same world. -/
def renderRepeated : Nat → ForwardRenderer → World → ForwardRenderer × List Call
  | 0, self, _ => (self, [])
  | n + 1, self, world =>
      let first := render self world
      let rest := renderRepeated n first.1 world
      (rest.1, first.2 ++ rest.2)

/-! ## Concrete scenes and renderers -/

/-- A pipeline state with nothing enabled. -/
def samplePipelineState : PipelineState :=
  { faceCullingEnabled := false
    faceCullingCulledFace := GLenum.other 0
    depthTestingEnabled := false
    depthTestingFunction := GLenum.GL_LEQUAL
    depthMask := true }

/-- A default-constructed textured material. -/
def sampleBlank : TexturedMaterial :=
  { pipelineState := samplePipelineState
    shader := 0
    transparent := false
    lighted := false
    tint := ⟨1, 1, 1, 1⟩
    texture := 0
    sampler := 0
    alphaThreshold := 0 }

/-- A scene material with the given shader and flags. -/
def sampleMaterial (shader : Nat) (transparent lighted : Bool) : Material :=
  { pipelineState := samplePipelineState
    shader := shader
    transparent := transparent
    lighted := lighted }

/-- A renderer with no sky and no post-process bundle. -/
def sampleRenderer : ForwardRenderer :=
  { windowSize := ⟨1280, 720⟩
    opaqueCommands := []
    transparentCommands := []
    lightedCommands := []
    skySphere := 0
    skyMaterial := none
    postprocessFrameBuffer := 0
    postProcessVertexArray := 0
    colorTarget := 0
    depthTarget := 0
    postprocessMaterial := none }

/-- A configuration with only the sky key. -/
def sampleConfigSky : Config :=
  { sky := some "assets/textures/sky.jpg", postprocess := none }

/-- A configuration with both keys. -/
def sampleConfigBoth : Config :=
  { sky := some "assets/textures/sky.jpg"
    postprocess := some "assets/shaders/postprocess/vignette.frag" }

/-- The renderer after initialize with both keys, identifiers starting at 1. -/
def sampleRendererBoth : ForwardRenderer :=
  (initializeRenderer sampleBlank sampleRenderer 1 ⟨1280, 720⟩ sampleConfigBoth).1

/-- A root entity at the given position carrying a mesh renderer. -/
def sampleMeshEntity (position : Vec3) (mesh : Nat) (material : Material) : Entity :=
  { localTransform := ⟨position⟩
    getLocalToWorldMatrix := translate Mat4.identity position
    camera := none
    meshRenderer := some ⟨mesh, material⟩ }

/-- A camera component with identity projection and the given view matrix. -/
def sampleCamera (view : Mat4) : CameraComponent :=
  { getProjectionMatrix := fun _ => Mat4.identity
    getViewMatrix := view }

/-- An unrotated root entity at the given position carrying a camera: it looks down -Z. -/
def sampleCameraEntity (position : Vec3) : Entity :=
  { localTransform := ⟨position⟩
    getLocalToWorldMatrix := translate Mat4.identity position
    camera := some (sampleCamera (translate Mat4.identity ⟨-position.x, -position.y, -position.z⟩))
    meshRenderer := none }

/-- The camera of sampleCameraEntity, with its owner. -/
def sampleCameraRef (position : Vec3) : CameraRef :=
  { component := sampleCamera (translate Mat4.identity ⟨-position.x, -position.y, -position.z⟩)
    owner := sampleCameraEntity position }

/-- An entity with no component at the given position. -/
def sampleEmptyEntity (position : Vec3) : Entity :=
  { localTransform := ⟨position⟩
    getLocalToWorldMatrix := translate Mat4.identity position
    camera := none
    meshRenderer := none }

/-- An unrotated camera entity at the origin of a parent placed at parentPosition. -/
def sampleChildCameraEntity (parentPosition : Vec3) : Entity :=
  { localTransform := ⟨⟨0, 0, 0⟩⟩
    getLocalToWorldMatrix := translate Mat4.identity parentPosition
    camera :=
      some (sampleCamera
        (translate Mat4.identity ⟨-parentPosition.x, -parentPosition.y, -parentPosition.z⟩))
    meshRenderer := none }

/-- The camera of sampleChildCameraEntity, with its owner. -/
def sampleChildCameraRef (parentPosition : Vec3) : CameraRef :=
  { component :=
      sampleCamera
        (translate Mat4.identity ⟨-parentPosition.x, -parentPosition.y, -parentPosition.z⟩)
    owner := sampleChildCameraEntity parentPosition }

/-- A camera at (0, 0, 2) looking down -Z; transparent mesh 101 at z = -1 and transparent mesh
102 at z = -5. -/
def translatedCameraWorld : World :=
  [ sampleCameraEntity ⟨0, 0, 2⟩,
    sampleMeshEntity ⟨0, 0, -1⟩ 101 (sampleMaterial 201 true false),
    sampleMeshEntity ⟨0, 0, -5⟩ 102 (sampleMaterial 201 true false) ]

/-- A camera at the origin looking down -Z; transparent mesh 101 at z = -5 (far) and
transparent mesh 102 at z = -1 (near). -/
def originCameraWorld : World :=
  [ sampleCameraEntity ⟨0, 0, 0⟩,
    sampleMeshEntity ⟨0, 0, -5⟩ 101 (sampleMaterial 201 true false),
    sampleMeshEntity ⟨0, 0, -1⟩ 102 (sampleMaterial 201 true false) ]

/-- A parent at (5, 0, 0), a camera that is its child at local position (0, 0, 0), and a lighted
mesh at the world origin. -/
def childCameraWorld : World :=
  [ sampleEmptyEntity ⟨5, 0, 0⟩,
    sampleChildCameraEntity ⟨5, 0, 0⟩,
    sampleMeshEntity ⟨0, 0, 0⟩ 101 (sampleMaterial 201 false true) ]

/-- One opaque, one lighted and one transparent mesh, and no camera. -/
def cameralessWorld : World :=
  [ sampleMeshEntity ⟨0, 0, -1⟩ 101 (sampleMaterial 201 false false),
    sampleMeshEntity ⟨1, 0, -2⟩ 102 (sampleMaterial 202 false true),
    sampleMeshEntity ⟨0, 1, -3⟩ 103 (sampleMaterial 203 true true) ]

/-- A camera at the origin looking down -Z, then a transparent mesh at z = -1, a lighted mesh,
an opaque mesh, and a mesh at z = -5 whose material is both transparent and lighted. -/
def mixedWorld : World :=
  [ sampleCameraEntity ⟨0, 0, 0⟩,
    sampleMeshEntity ⟨0, 0, -1⟩ 101 (sampleMaterial 201 true false),
    sampleMeshEntity ⟨1, 0, -2⟩ 102 (sampleMaterial 202 false true),
    sampleMeshEntity ⟨0, 1, -3⟩ 103 (sampleMaterial 203 false false),
    sampleMeshEntity ⟨0, 0, -5⟩ 104 (sampleMaterial 201 true true) ]

/-- The world-space position of an entity: its local-to-world matrix applied to the point
(0, 0, 0, 1). -/
def worldPosition (entity : Entity) : Vec3 :=
  (entity.getLocalToWorldMatrix.mulVec ⟨0, 0, 0, 1⟩).xyz

/-- The forward axis of an entity: its local -Z axis transformed into world space as a
direction, that is, its local-to-world matrix applied to (0, 0, -1, 0). -/
def forwardDirection (entity : Entity) : Vec3 :=
  (entity.getLocalToWorldMatrix.mulVec ⟨0, 0, -1, 0⟩).xyz

/-- Component-wise sum of two glm::vec3. -/
def Vec3.add (a b : Vec3) : Vec3 := ⟨a.x + b.x, a.y + b.y, a.z + b.z⟩

/-- Component-wise difference of two glm::vec3. -/
def Vec3.sub (a b : Vec3) : Vec3 := ⟨a.x - b.x, a.y - b.y, a.z - b.z⟩

/-- The values set for the uniform "eye" by a sequence of calls, in order. -/
def eyeUniforms (calls : List Call) : List Vec3 :=
  calls.filterMap fun call =>
    match call with
    | Call.shaderSet _ name (UniformValue.vec3 v) => if name = "eye" then some v else none
    | _ => none

/-- The renderer after the collection loop of render: the three buckets rebuilt from the world. -/
def collected (self : ForwardRenderer) (world : World) : ForwardRenderer :=
  { self with
    opaqueCommands := (commandsOf world).filter inOpaque
    transparentCommands := (commandsOf world).filter inTransparent
    lightedCommands := (commandsOf world).filter inLighted }

/-- The calls of render between the clear and the post-processing step: the four passes. -/
def scenePasses (self : ForwardRenderer) (VP : Mat4) (camera : CameraRef) : List Call :=
  self.opaqueCommands.flatMap (drawCommand VP) ++
  self.lightedCommands.flatMap (drawLighted VP camera) ++
  drawSky self VP camera ++
  self.transparentCommands.flatMap (drawCommand VP)

/-- The view-projection matrix that render computes for a camera. -/
def viewProjection (self : ForwardRenderer) (camera : CameraRef) : Mat4 :=
  (camera.component.getProjectionMatrix self.windowSize).mul camera.component.getViewMatrix

/-- The vector cameraForward that render computes for a camera. -/
def cameraForwardOf (camera : CameraRef) : Vec3 :=
  (camera.owner.getLocalToWorldMatrix.mulVec ⟨0, 0, -1, 1⟩).xyz

/-- The renderer after the sort of render. -/
def sorted (self : ForwardRenderer) (camera : CameraRef) : ForwardRenderer :=
  { self with
    transparentCommands :=
      stdSort (transparentBefore (cameraForwardOf camera)) self.transparentCommands }

/-! ## Owned resources -/

/-- The kinds of object the renderer owns. -/
inductive ResourceKind where
  | mesh
  | shaderProgram
  | texture
  | sampler
  | texturedMaterial
  | framebuffer
  | vertexArray
deriving DecidableEq, Repr

/-- One owned object: its kind and the identifier its creation returned. -/
structure Resource where
  kind : ResourceKind
  id : Nat
deriving DecidableEq, Repr

/-- The object a call creates, if any. -/
def createdBy : Call → Option Resource
  | Call.meshSphere _ result => some ⟨ResourceKind.mesh, result⟩
  | Call.newShaderProgram result => some ⟨ResourceKind.shaderProgram, result⟩
  | Call.loadImage _ _ result => some ⟨ResourceKind.texture, result⟩
  | Call.textureEmpty _ _ result => some ⟨ResourceKind.texture, result⟩
  | Call.newSampler result => some ⟨ResourceKind.sampler, result⟩
  | Call.newTexturedMaterial result => some ⟨ResourceKind.texturedMaterial, result⟩
  | Call.glGenFramebuffers result => some ⟨ResourceKind.framebuffer, result⟩
  | Call.glGenVertexArrays result => some ⟨ResourceKind.vertexArray, result⟩
  | _ => none

/-- The object a call releases, if any. -/
def releasedBy : Call → Option Resource
  | Call.deleteMesh p => some ⟨ResourceKind.mesh, p⟩
  | Call.deleteShaderProgram p => some ⟨ResourceKind.shaderProgram, p⟩
  | Call.deleteTexture p => some ⟨ResourceKind.texture, p⟩
  | Call.deleteSampler p => some ⟨ResourceKind.sampler, p⟩
  | Call.deleteTexturedMaterial p => some ⟨ResourceKind.texturedMaterial, p⟩
  | Call.glDeleteFramebuffers name => some ⟨ResourceKind.framebuffer, name⟩
  | Call.glDeleteVertexArrays name => some ⟨ResourceKind.vertexArray, name⟩
  | _ => none

/-- The objects created by a sequence of calls, one entry per creation. -/
def created (calls : List Call) : List Resource := calls.filterMap createdBy

/-- The objects released by a sequence of calls, one entry per release. -/
def released (calls : List Call) : List Resource := calls.filterMap releasedBy

/-- A call of one of the two lifecycle methods. -/
inductive Op where
  | callInitialize (windowSize : IVec2) (config : Config)
  | callDestroy

/-- A sequence of lifecycle calls on one renderer: the final renderer, the next unused
identifier and all the calls made. -/
def runOps (blank : TexturedMaterial) : ForwardRenderer → Nat → List Op →
    ForwardRenderer × Nat × List Call
  | self, fresh, [] => (self, fresh, [])
  | self, fresh, Op.callInitialize windowSize config :: rest =>
      let first := initializeRenderer blank self fresh windowSize config
      let others := runOps blank first.1 first.2.1 rest
      (others.1, others.2.1, first.2.2 ++ others.2.2)
  | self, fresh, Op.callDestroy :: rest =>
      let others := runOps blank self fresh rest
      (others.1, others.2.1, destroy self ++ others.2.2)

/-- Each configuration enables every bundle that the one before it enabled (skyBefore and
postprocessBefore say which bundles were enabled before the first). -/
def configsGrow (skyBefore postprocessBefore : Bool) : List (IVec2 × Config) → Bool
  | [] => true
  | round :: rest =>
      (!skyBefore || round.2.sky.isSome) && (!postprocessBefore || round.2.postprocess.isSome) &&
        configsGrow round.2.sky.isSome round.2.postprocess.isSome rest

/-- Any number of destroy calls, then one initialize followed by one destroy per round. -/
def roundsOps (leading : Nat) (rounds : List (IVec2 × Config)) : List Op :=
  List.replicate leading Op.callDestroy ++
    rounds.flatMap fun round => [Op.callInitialize round.1 round.2, Op.callDestroy]

/-! ## Lemmas on the collection loop and on the sort -/

theorem collect_foldl (world : World) (camera : Option CameraRef) (self : ForwardRenderer) :
    world.foldl collectStep (camera, self) =
      (camera.orElse (fun _ => firstCamera world),
       { self with
         opaqueCommands := self.opaqueCommands ++ (commandsOf world).filter inOpaque
         transparentCommands := self.transparentCommands ++ (commandsOf world).filter inTransparent
         lightedCommands := self.lightedCommands ++ (commandsOf world).filter inLighted }) := by
  induction world generalizing camera self with
  | nil => cases camera <;> simp [commandsOf, firstCamera]
  | cons entity rest ih =>
    rw [List.foldl_cons, ← Prod.mk.eta (p := collectStep (camera, self) entity), ih]
    cases hm : entity.meshRenderer with
    | none =>
      cases camera <;> cases hc : entity.camera <;>
        simp [collectStep, commandsOf, commandOf, firstCamera, hm, hc, List.findSome?_cons]
    | some meshRenderer =>
      cases ht : meshRenderer.material.transparent <;>
      cases hl : meshRenderer.material.lighted <;>
      cases camera <;> cases hc : entity.camera <;>
        simp [collectStep, commandsOf, commandOf, firstCamera, hm, hc, ht, hl,
          List.findSome?_cons, inOpaque, inTransparent, inLighted, List.filter_cons]

theorem insertSorted_perm {α : Type} (comp : α → α → Bool) (a : α) (l : List α) :
    (insertSorted comp a l).Perm (a :: l) := by
  induction l with
  | nil => simp [insertSorted]
  | cons b l ih =>
    unfold insertSorted
    split
    · exact (List.Perm.cons b ih).trans (List.Perm.swap a b l)
    · exact List.Perm.refl _

theorem stdSort_perm {α : Type} (comp : α → α → Bool) (l : List α) :
    (stdSort comp l).Perm l := by
  induction l with
  | nil => simp [stdSort]
  | cons a l ih =>
    unfold stdSort
    exact (insertSorted_perm comp a _).trans (List.Perm.cons a ih)

theorem render_eq (self : ForwardRenderer) (world : World) :
    render self world =
      match firstCamera world with
      | none => (collected self world, [])
      | some camera => renderWithCamera (collected self world) camera := by
  unfold render
  simp only [collect_foldl, List.nil_append, Option.orElse]
  rfl

theorem firstCamera_eq_none (world : World) (h : ∀ entity ∈ world, entity.camera = none) :
    firstCamera world = none := by
  induction world with
  | nil => rfl
  | cons entity rest ih =>
    have h0 : entity.camera = none := h entity (List.mem_cons_self _ _)
    have hr : firstCamera rest = none := ih fun e he => h e (List.mem_cons_of_mem _ he)
    unfold firstCamera at hr ⊢
    simp [List.findSome?_cons, h0, hr]

/-- A world in which some entity has a camera has a first camera. -/
theorem firstCamera_of_mem (world : World) (entity : Entity) (hmem : entity ∈ world)
    (hcam : entity.camera.isSome = true) : ∃ camera, firstCamera world = some camera := by
  induction world with
  | nil => cases hmem
  | cons first rest ih =>
    cases hfirst : first.camera with
    | some component => exact ⟨⟨component, first⟩, by simp [firstCamera, hfirst]⟩
    | none =>
      rcases List.mem_cons.mp hmem with rfl | hrest
      · rw [hfirst] at hcam
        cases hcam
      · obtain ⟨camera, hc⟩ := ih hrest
        refine ⟨camera, ?_⟩
        unfold firstCamera at hc ⊢
        simp [List.findSome?_cons, hfirst, hc]

theorem buckets_perm (l : List RenderCommand) :
    (l.filter inOpaque ++ l.filter inLighted ++ l.filter inTransparent).Perm l := by
  induction l with
  | nil => simp
  | cons c l ih =>
    cases ht : c.material.transparent <;> cases hl : c.material.lighted
    · simpa [List.filter_cons, inOpaque, inLighted, inTransparent, ht, hl] using ih
    · simp only [List.filter_cons, inOpaque, inLighted, inTransparent, ht, hl, Bool.not_false,
        Bool.not_true, Bool.and_true, Bool.and_false, Bool.false_eq_true, if_true, if_false,
        List.append_assoc, List.cons_append]
      exact List.perm_middle.trans (List.Perm.cons c (by simpa using ih))
    · simp only [List.filter_cons, inOpaque, inLighted, inTransparent, ht, hl, Bool.not_false,
        Bool.not_true, Bool.and_true, Bool.and_false, Bool.false_eq_true, if_true, if_false,
        Bool.true_and, Bool.false_and]
      exact List.perm_middle.trans (List.Perm.cons c ih)
    · simp only [List.filter_cons, inOpaque, inLighted, inTransparent, ht, hl, Bool.not_false,
        Bool.not_true, Bool.and_true, Bool.and_false, Bool.false_eq_true, if_true, if_false,
        Bool.true_and, Bool.false_and]
      exact List.perm_middle.trans (List.Perm.cons c ih)

theorem render_buckets (self : ForwardRenderer) (world : World) :
    (render self world).1.opaqueCommands = (commandsOf world).filter inOpaque ∧
    (render self world).1.lightedCommands = (commandsOf world).filter inLighted ∧
    (render self world).1.transparentCommands.Perm ((commandsOf world).filter inTransparent) := by
  rw [render_eq]
  cases firstCamera world with
  | none => exact ⟨rfl, rfl, List.Perm.refl _⟩
  | some camera => exact ⟨rfl, rfl, stdSort_perm _ _⟩

/-! ## Classification -/

/-- C3: whatever the buckets held before and whether or not the world has a camera, after
render the opaque, lighted and transparent buckets together hold exactly one command per entity
with a mesh renderer and nothing else; a command is in the transparent bucket when its material
is transparent (whatever lighted says), in the lighted bucket when it is lighted and not
transparent, and in the opaque bucket otherwise. -/
theorem render_classification_partition (self : ForwardRenderer) (world : World) :
    ((render self world).1.opaqueCommands ++ (render self world).1.lightedCommands ++
        (render self world).1.transparentCommands).Perm (commandsOf world) ∧
    (∀ c ∈ commandsOf world,
      (c.material.transparent = true → c ∈ (render self world).1.transparentCommands) ∧
      (c.material.transparent = false → c.material.lighted = true →
        c ∈ (render self world).1.lightedCommands) ∧
      (c.material.transparent = false → c.material.lighted = false →
        c ∈ (render self world).1.opaqueCommands)) ∧
    (∀ c ∈ (render self world).1.transparentCommands, c.material.transparent = true) ∧
    (∀ c ∈ (render self world).1.lightedCommands,
      c.material.transparent = false ∧ c.material.lighted = true) ∧
    (∀ c ∈ (render self world).1.opaqueCommands,
      c.material.transparent = false ∧ c.material.lighted = false) := by
  obtain ⟨ho, hl, ht⟩ := render_buckets self world
  refine ⟨?_, ?_, ?_, ?_, ?_⟩
  · rw [ho, hl]
    exact (List.Perm.append_left _ ht).trans (buckets_perm _)
  · intro c hc
    refine ⟨fun h => ?_, fun h h2 => ?_, fun h h2 => ?_⟩
    · exact ht.symm.subset (List.mem_filter.mpr ⟨hc, by simp [inTransparent, h]⟩)
    · rw [hl]
      exact List.mem_filter.mpr ⟨hc, by simp [inLighted, h, h2]⟩
    · rw [ho]
      exact List.mem_filter.mpr ⟨hc, by simp [inOpaque, h, h2]⟩
  · intro c hc
    have := (List.mem_filter.mp (ht.subset hc)).2
    simpa [inTransparent] using this
  · intro c hc
    rw [hl] at hc
    have := (List.mem_filter.mp hc).2
    simpa [inLighted] using this
  · intro c hc
    rw [ho] at hc
    have := (List.mem_filter.mp hc).2
    simpa [inOpaque] using this

/-! ## Frames without a camera -/

theorem renderRepeated_without_camera (world : World)
    (h : ∀ entity ∈ world, entity.camera = none) (n : Nat) (self : ForwardRenderer) :
    (renderRepeated n self world).2 = [] := by
  induction n generalizing self with
  | zero => rfl
  | succ n ih =>
    unfold renderRepeated
    simp only [ih, List.append_nil]
    rw [render_eq, firstCamera_eq_none world h]

/-- C4: in a world where no entity has a camera, render makes no call at all (so no viewport or
clear-state change, no framebuffer bind, no clear, no uniform set, no draw), whatever the
renderer holds (sky or post-process bundle present or absent); the bound framebuffer is the one
bound before; the same holds for any number of repeated render calls. -/
theorem render_without_camera_is_silent (self : ForwardRenderer) (world : World)
    (h : ∀ entity ∈ world, entity.camera = none) (n : Nat) (bound : Nat) :
    (render self world).2 = [] ∧
    boundFramebuffer bound (render self world).2 = bound ∧
    (renderRepeated n self world).2 = [] ∧
    boundFramebuffer bound (renderRepeated n self world).2 = bound := by
  have h1 : (render self world).2 = [] := by
    rw [render_eq, firstCamera_eq_none world h]
  have h2 := renderRepeated_without_camera world h n self
  rw [h1, h2]
  exact ⟨rfl, rfl, rfl, rfl⟩

/-! ## The order left by the sort -/

theorem meshDraws_append (a b : List Call) : meshDraws (a ++ b) = meshDraws a ++ meshDraws b := by
  simp [meshDraws, List.filterMap_append]

theorem scenePasses_no_clear_bind_drawArrays (self : ForwardRenderer) (VP : Mat4)
    (camera : CameraRef) (call : Call) (h : call ∈ scenePasses self VP camera) :
    (∀ c d, call ≠ Call.glClear c d) ∧ (∀ t f, call ≠ Call.glBindFramebuffer t f) ∧
    (∀ m f c, call ≠ Call.glDrawArrays m f c) := by
  unfold scenePasses drawSky at h
  simp only [List.mem_append, List.mem_flatMap] at h
  rcases h with ((⟨c, -, hc⟩ | ⟨c, -, hc⟩) | hs) | ⟨c, -, hc⟩
  · simp only [drawCommand, List.mem_cons, List.mem_singleton, List.not_mem_nil, or_false] at hc
    rcases hc with rfl | rfl | rfl <;> simp
  · simp only [drawLighted, List.mem_cons, List.mem_singleton, List.not_mem_nil, or_false] at hc
    rcases hc with rfl | rfl | rfl | rfl | rfl | rfl | rfl | rfl | rfl | rfl | rfl | rfl | rfl |
      rfl | rfl | rfl | rfl | rfl | rfl | rfl | rfl | rfl | rfl | rfl | rfl | rfl <;> simp
  · cases hsky : self.skyMaterial with
    | none => simp [hsky] at hs
    | some m =>
      simp only [hsky, List.mem_cons, List.mem_singleton, List.not_mem_nil, or_false] at hs
      rcases hs with rfl | rfl | rfl <;> simp
  · simp only [drawCommand, List.mem_cons, List.mem_singleton, List.not_mem_nil, or_false] at hc
    rcases hc with rfl | rfl | rfl <;> simp

theorem renderWithCamera_eq (self : ForwardRenderer) (camera : CameraRef) :
    renderWithCamera self camera =
      (sorted self camera,
       [ Call.glViewport 0 0 self.windowSize.x self.windowSize.y,
         Call.glClearColor 0 0 0 1,
         Call.glClearDepth 1,
         Call.glDepthMask true,
         Call.glColorMask true true true true ] ++
       (match self.postprocessMaterial with
        | some _ => [Call.glBindFramebuffer GLenum.GL_DRAW_FRAMEBUFFER self.postprocessFrameBuffer]
        | none => []) ++
       Call.glClear true true ::
         (scenePasses (sorted self camera) (viewProjection self camera) camera ++
          applyPostprocess self)) := by
  unfold renderWithCamera scenePasses sorted viewProjection cameraForwardOf applyPostprocess drawSky
  simp only [List.append_assoc, List.cons_append, List.nil_append, List.singleton_append]

/-- C6: in a world with a camera, when the post-process material exists the calls of render are:
calls that bind no framebuffer, clear nothing and draw nothing; the bind of the offscreen
framebuffer; the clear; the four scene passes (all the mesh draws, no bind, no clear, no
glDrawArrays); then the bind of framebuffer 0, the vertex array bind, the material setup and
one glDrawArrays of 3 vertices as triangles, so that framebuffer 0 is bound at the end. When the
post-process material is absent, render binds no framebuffer and calls no glDrawArrays. -/
theorem render_postprocess_toggle (self : ForwardRenderer) (world : World) (camera : CameraRef)
    (h : firstCamera world = some camera) :
    (∀ postprocessMaterial, self.postprocessMaterial = some postprocessMaterial →
      ∃ before scene,
        (render self world).2 =
          before ++
          [ Call.glBindFramebuffer GLenum.GL_DRAW_FRAMEBUFFER self.postprocessFrameBuffer,
            Call.glClear true true ] ++
          scene ++
          [ Call.glBindFramebuffer GLenum.GL_DRAW_FRAMEBUFFER 0,
            Call.glBindVertexArray self.postProcessVertexArray,
            Call.texturedMaterialSetup postprocessMaterial.obj,
            Call.glDrawArrays GLenum.GL_TRIANGLES 0 3 ] ∧
        meshDraws before = [] ∧
        (∀ call ∈ before,
          (∀ c d, call ≠ Call.glClear c d) ∧ (∀ t f, call ≠ Call.glBindFramebuffer t f) ∧
          (∀ m f c, call ≠ Call.glDrawArrays m f c)) ∧
        (∀ call ∈ scene,
          (∀ c d, call ≠ Call.glClear c d) ∧ (∀ t f, call ≠ Call.glBindFramebuffer t f) ∧
          (∀ m f c, call ≠ Call.glDrawArrays m f c)) ∧
        meshDraws scene = meshDraws (render self world).2 ∧
        ∀ bound, boundFramebuffer bound (render self world).2 = 0) ∧
    (self.postprocessMaterial = none →
      (∀ t f, Call.glBindFramebuffer t f ∉ (render self world).2) ∧
      (∀ m f c, Call.glDrawArrays m f c ∉ (render self world).2)) := by
  rw [render_eq, h]
  simp only [renderWithCamera_eq]
  have hpp : (collected self world).postprocessMaterial = self.postprocessMaterial := rfl
  have hfb : (collected self world).postprocessFrameBuffer = self.postprocessFrameBuffer := rfl
  have hva : (collected self world).postProcessVertexArray = self.postProcessVertexArray := rfl
  constructor
  · intro postprocessMaterial hsome
    refine ⟨[ Call.glViewport 0 0 self.windowSize.x self.windowSize.y,
              Call.glClearColor 0 0 0 1, Call.glClearDepth 1, Call.glDepthMask true,
              Call.glColorMask true true true true ],
            scenePasses (sorted (collected self world) camera)
              (viewProjection (collected self world) camera) camera, ?_, rfl, ?_, ?_, ?_, ?_⟩
    · simp only [applyPostprocess, hpp, hsome, hfb, hva]
      simp [collected]
    · intro call hc
      simp only [List.mem_cons, List.mem_singleton, List.not_mem_nil, or_false] at hc
      rcases hc with rfl | rfl | rfl | rfl | rfl <;> simp
    · intro call hc
      exact scenePasses_no_clear_bind_drawArrays _ _ _ _ hc
    · simp only [applyPostprocess, hpp, hsome, meshDraws_append]
      simp [meshDraws]
    · intro bound
      simp only [applyPostprocess, hpp, hsome]
      simp [boundFramebuffer, List.foldl_append]
  · intro hnone
    simp only [applyPostprocess, hpp, hnone, List.append_nil]
    constructor
    · intro t f hmem
      simp only [List.cons_append, List.nil_append, List.mem_cons, reduceCtorEq, false_or] at hmem
      exact (scenePasses_no_clear_bind_drawArrays _ _ _ _ hmem).2.1 t f rfl
    · intro m f c hmem
      simp only [List.cons_append, List.nil_append, List.mem_cons, reduceCtorEq, false_or] at hmem
      exact (scenePasses_no_clear_bind_drawArrays _ _ _ _ hmem).2.2 m f c rfl

/-! ## The sky transform -/

theorem Mat4.mul_mulVec (a b : Mat4) (v : Vec4) : (a.mul b).mulVec v = a.mulVec (b.mulVec v) := by
  simp only [Mat4.mul, Mat4.mulVec, Vec4.add, Vec4.scale, Vec4.mk.injEq]
  refine ⟨?_, ?_, ?_, ?_⟩ <;> ring

theorem alwaysBehindTransform_mulVec (v : Vec4) :
    alwaysBehindTransform.mulVec v = ⟨v.x, v.y, v.w, v.w⟩ := by
  simp [alwaysBehindTransform, Mat4.mulVec, Vec4.add, Vec4.scale]

/-- C7: alwaysBehindTransform maps every clip-space vector (x, y, z, w) to (x, y, w, w); hence
for every view-projection matrix VP, camera position and sky vertex whose clip-space w (under
VP * M, M the translation to the camera position) is not zero, the sky transform
alwaysBehindTransform * VP * M yields depth z / w = 1 and the x, y and w of VP * M. -/
theorem sky_depth_is_far_plane (VP : Mat4) (cameraPosition : Vec3) (vertex : Vec4)
    (h : ((VP.mul (translate Mat4.identity cameraPosition)).mulVec vertex).w ≠ 0) :
    (∀ v : Vec4, alwaysBehindTransform.mulVec v = ⟨v.x, v.y, v.w, v.w⟩) ∧
    ((skyTransform VP cameraPosition).mulVec vertex).z /
        ((skyTransform VP cameraPosition).mulVec vertex).w = 1 ∧
    ((skyTransform VP cameraPosition).mulVec vertex).x =
      ((VP.mul (translate Mat4.identity cameraPosition)).mulVec vertex).x ∧
    ((skyTransform VP cameraPosition).mulVec vertex).y =
      ((VP.mul (translate Mat4.identity cameraPosition)).mulVec vertex).y ∧
    ((skyTransform VP cameraPosition).mulVec vertex).w =
      ((VP.mul (translate Mat4.identity cameraPosition)).mulVec vertex).w := by
  have e : (skyTransform VP cameraPosition).mulVec vertex =
      alwaysBehindTransform.mulVec
        ((VP.mul (translate Mat4.identity cameraPosition)).mulVec vertex) := by
    simp only [skyTransform, Mat4.mul_mulVec]
  rw [e, alwaysBehindTransform_mulVec]
  exact ⟨alwaysBehindTransform_mulVec, div_self h, rfl, rfl, rfl⟩

theorem created_append (a b : List Call) : created (a ++ b) = created a ++ created b := by
  simp [created, List.filterMap_append]

theorem released_append (a b : List Call) : released (a ++ b) = released a ++ released b := by
  simp [released, List.filterMap_append]

theorem created_destroy (self : ForwardRenderer) : created (destroy self) = [] := by
  unfold destroy
  cases self.skyMaterial <;> cases self.postprocessMaterial <;> rfl

theorem released_initializeRenderer (blank : TexturedMaterial) (self : ForwardRenderer)
    (fresh : Nat) (windowSize : IVec2) (config : Config) :
    released (initializeRenderer blank self fresh windowSize config).2.2 = [] := by
  rcases config with ⟨_ | sky, _ | postprocess⟩ <;> rfl

/-- One initialize followed by one destroy, on a renderer whose present bundles are all enabled
by the configuration: the identifiers created are the next unused ones in order, destroy
releases exactly the objects created, and afterwards the bundles present are those of the
configuration. -/
theorem initialize_then_destroy (blank : TexturedMaterial) (self : ForwardRenderer) (fresh : Nat)
    (windowSize : IVec2) (config : Config)
    (hs : self.skyMaterial.isSome = true → config.sky.isSome = true)
    (hp : self.postprocessMaterial.isSome = true → config.postprocess.isSome = true) :
    (released (destroy (initializeRenderer blank self fresh windowSize config).1)).Perm
        (created (initializeRenderer blank self fresh windowSize config).2.2) ∧
    (created (initializeRenderer blank self fresh windowSize config).2.2).map (fun r => r.id) =
        List.range' fresh ((initializeRenderer blank self fresh windowSize config).2.1 - fresh) ∧
    fresh ≤ (initializeRenderer blank self fresh windowSize config).2.1 ∧
    (initializeRenderer blank self fresh windowSize config).1.skyMaterial.isSome =
        config.sky.isSome ∧
    (initializeRenderer blank self fresh windowSize config).1.postprocessMaterial.isSome =
        config.postprocess.isSome := by
  rcases config with ⟨_ | sky, _ | postprocess⟩
  · have h1 : self.skyMaterial = none := by
      cases h : self.skyMaterial with
      | none => rfl
      | some m => simp [h] at hs
    have h2 : self.postprocessMaterial = none := by
      cases h : self.postprocessMaterial with
      | none => rfl
      | some m => simp [h] at hp
    simp [initializeRenderer, destroy, created, released, h1, h2]
  · have h1 : self.skyMaterial = none := by
      cases h : self.skyMaterial with
      | none => rfl
      | some m => simp [h] at hs
    simp only [initializeRenderer, initializePostprocess, destroy, h1]
    refine ⟨?_, ?_, by omega, rfl, rfl⟩
    · simp only [created, released, List.filterMap_cons, List.filterMap_nil, createdBy,
        releasedBy, List.nil_append]
      exact List.Perm.cons _
        ((List.Perm.swap _ _ _).trans (List.Perm.cons _ (List.Perm.swap _ _ _)))
    · simp [created, createdBy, List.range'_succ, show fresh + 7 - fresh = 7 by omega]
  · have h2 : self.postprocessMaterial = none := by
      cases h : self.postprocessMaterial with
      | none => rfl
      | some m => simp [h] at hp
    simp only [initializeRenderer, initializeSky, destroy, h2]
    refine ⟨?_, ?_, by omega, rfl, rfl⟩
    · simp only [created, released, List.filterMap_cons, List.filterMap_nil, createdBy,
        releasedBy, List.append_nil]
      exact List.Perm.refl _
    · simp [created, createdBy, List.range'_succ, show fresh + 5 - fresh = 5 by omega]
  · simp only [initializeRenderer, initializeSky, initializePostprocess, destroy]
    refine ⟨?_, ?_, by omega, rfl, rfl⟩
    · simp only [created, released, List.filterMap_cons, List.filterMap_nil, createdBy,
        releasedBy, List.filterMap_append, List.cons_append, List.nil_append]
      refine List.Perm.cons _ (List.Perm.cons _ (List.Perm.cons _ (List.Perm.cons _
        (List.Perm.cons _ (List.Perm.cons _ ?_)))))
      exact (List.Perm.swap _ _ _).trans (List.Perm.cons _ (List.Perm.swap _ _ _))
    · simp [created, createdBy, List.range'_succ, show fresh + 5 + 7 - fresh = 12 by omega,
        Nat.add_assoc]

theorem range'_glue (a b c : Nat) (h1 : a ≤ b) (h2 : b ≤ c) :
    List.range' a (b - a) ++ List.range' b (c - b) = List.range' a (c - a) := by
  have h := List.range'_append_1 a (b - a) (c - b)
  rw [show a + (b - a) = b by omega, show c - b + (b - a) = c - a by omega] at h
  exact h

theorem runOps_rounds (blank : TexturedMaterial) (rounds : List (IVec2 × Config))
    (self : ForwardRenderer) (fresh : Nat)
    (h : configsGrow self.skyMaterial.isSome self.postprocessMaterial.isSome rounds = true) :
    (released (runOps blank self fresh (roundsOps 0 rounds)).2.2).Perm
        (created (runOps blank self fresh (roundsOps 0 rounds)).2.2) ∧
    (created (runOps blank self fresh (roundsOps 0 rounds)).2.2).map (fun r => r.id) =
        List.range' fresh ((runOps blank self fresh (roundsOps 0 rounds)).2.1 - fresh) ∧
    fresh ≤ (runOps blank self fresh (roundsOps 0 rounds)).2.1 := by
  induction rounds generalizing self fresh with
  | nil => simp [roundsOps, runOps, created, released]
  | cons round rest ih =>
    simp only [configsGrow, Bool.and_eq_true, Bool.or_eq_true, Bool.not_eq_true'] at h
    obtain ⟨⟨hs, hp⟩, hrest⟩ := h
    have hs2 : self.skyMaterial.isSome = true → round.2.sky.isSome = true := by
      intro h1
      rcases hs with h2 | h2
      · rw [h1] at h2; cases h2
      · exact h2
    have hp2 : self.postprocessMaterial.isSome = true → round.2.postprocess.isSome = true := by
      intro h1
      rcases hp with h2 | h2
      · rw [h1] at h2; cases h2
      · exact h2
    obtain ⟨hperm, hids, hle, hsky, hpost⟩ :=
      initialize_then_destroy blank self fresh round.1 round.2 hs2 hp2
    rw [← hsky, ← hpost] at hrest
    obtain ⟨iperm, iids, ile⟩ :=
      ih (initializeRenderer blank self fresh round.1 round.2).1
        (initializeRenderer blank self fresh round.1 round.2).2.1 hrest
    have e : runOps blank self fresh (roundsOps 0 (round :: rest)) =
        ((runOps blank (initializeRenderer blank self fresh round.1 round.2).1
            (initializeRenderer blank self fresh round.1 round.2).2.1 (roundsOps 0 rest)).1,
         (runOps blank (initializeRenderer blank self fresh round.1 round.2).1
            (initializeRenderer blank self fresh round.1 round.2).2.1 (roundsOps 0 rest)).2.1,
         (initializeRenderer blank self fresh round.1 round.2).2.2 ++
           (destroy (initializeRenderer blank self fresh round.1 round.2).1 ++
             (runOps blank (initializeRenderer blank self fresh round.1 round.2).1
               (initializeRenderer blank self fresh round.1 round.2).2.1
               (roundsOps 0 rest)).2.2)) := rfl
    rw [e]
    simp only [created_append, released_append, created_destroy, released_initializeRenderer,
      List.nil_append, List.map_append]
    refine ⟨List.Perm.append hperm iperm, ?_, le_trans hle ile⟩
    rw [hids, iids]
    exact range'_glue _ _ _ hle ile

theorem runOps_leading_destroy (blank : TexturedMaterial) (self : ForwardRenderer) (fresh : Nat)
    (hs : self.skyMaterial = none) (hp : self.postprocessMaterial = none) (leading : Nat)
    (rounds : List (IVec2 × Config)) :
    runOps blank self fresh (roundsOps leading rounds) =
      runOps blank self fresh (roundsOps 0 rounds) := by
  induction leading with
  | zero => rfl
  | succ n ih =>
    have e : roundsOps (n + 1) rounds = Op.callDestroy :: roundsOps n rounds := by
      simp [roundsOps, List.replicate_succ]
    have d : destroy self = [] := by simp [destroy, hs, hp]
    rw [e]
    simp only [runOps, d, List.nil_append]
    rw [ih]

/-- C9: on a renderer with no sky and no post-process bundle, for each of the four
configurations (sky key absent or present, postprocess key absent or present), initialize
creates exactly the sky bundle (sphere mesh, shader, texture, sampler, material) when the sky
key is present followed by the post-process bundle (framebuffer, color target, depth target,
vertex array, sampler, shader, material) when the postprocess key is present, all distinct;
one subsequent destroy releases exactly those objects, each once, and nothing else. -/
theorem initialize_destroy_symmetry (blank : TexturedMaterial) (self : ForwardRenderer)
    (fresh : Nat) (windowSize : IVec2) (config : Config)
    (hs : self.skyMaterial = none) (hp : self.postprocessMaterial = none) :
    (created (initializeRenderer blank self fresh windowSize config).2.2).map (fun r => r.kind) =
      (if config.sky.isSome then
        [ResourceKind.mesh, ResourceKind.shaderProgram, ResourceKind.texture,
         ResourceKind.sampler, ResourceKind.texturedMaterial]
       else []) ++
      (if config.postprocess.isSome then
        [ResourceKind.framebuffer, ResourceKind.texture, ResourceKind.texture,
         ResourceKind.vertexArray, ResourceKind.sampler, ResourceKind.shaderProgram,
         ResourceKind.texturedMaterial]
       else []) ∧
    (created (initializeRenderer blank self fresh windowSize config).2.2).Nodup ∧
    (released (destroy (initializeRenderer blank self fresh windowSize config).1)).Nodup ∧
    (released (destroy (initializeRenderer blank self fresh windowSize config).1)).Perm
      (created (initializeRenderer blank self fresh windowSize config).2.2) := by
  obtain ⟨hperm, hids, -, -, -⟩ :=
    initialize_then_destroy blank self fresh windowSize config (by simp [hs]) (by simp [hp])
  have hnodup : (created (initializeRenderer blank self fresh windowSize config).2.2).Nodup := by
    apply List.Nodup.of_map (fun r => r.id)
    rw [hids]
    exact List.nodup_range' _ _
  refine ⟨?_, hnodup, hperm.nodup_iff.mpr hnodup, hperm⟩
  rcases config with ⟨_ | sky, _ | postprocess⟩ <;>
    simp [initializeRenderer, initializeSky, initializePostprocess, created, createdBy]

/-- C10, amended: on a renderer that starts with no bundle, for every sequence made of any
number of destroy calls followed by any number of rounds of one initialize then one destroy, in
which each configuration enables every bundle that the previous one enabled, no object is
released more than once and the objects released are exactly the objects created, each once. -/
theorem lifecycle_rounds_release_once (blank : TexturedMaterial) (self : ForwardRenderer)
    (fresh : Nat) (leading : Nat) (rounds : List (IVec2 × Config))
    (hs : self.skyMaterial = none) (hp : self.postprocessMaterial = none)
    (hgrow : configsGrow false false rounds = true) :
    (released (runOps blank self fresh (roundsOps leading rounds)).2.2).Nodup ∧
    (released (runOps blank self fresh (roundsOps leading rounds)).2.2).Perm
      (created (runOps blank self fresh (roundsOps leading rounds)).2.2) := by
  rw [runOps_leading_destroy blank self fresh hs hp]
  have hgrow2 :
      configsGrow self.skyMaterial.isSome self.postprocessMaterial.isSome rounds = true := by
    rw [hs, hp]
    exact hgrow
  obtain ⟨hperm, hids, -⟩ := runOps_rounds blank rounds self fresh hgrow2
  have hnodup : (created (runOps blank self fresh (roundsOps 0 rounds)).2.2).Nodup := by
    apply List.Nodup.of_map (fun r => r.id)
    rw [hids]
    exact List.nodup_range' _ _
  exact ⟨hperm.nodup_iff.mpr hnodup, hperm⟩

/-! ## Evaluations on concrete scenes -/

/-- The vector cameraForward of render is the camera's world position plus its forward
direction: the matrix is applied to (0, 0, -1, 1), a point, not to (0, 0, -1, 0). -/
theorem cameraForwardOf_eq (camera : CameraRef) :
    cameraForwardOf camera =
      (worldPosition camera.owner).add (forwardDirection camera.owner) := by
  simp only [cameraForwardOf, worldPosition, forwardDirection, Mat4.mulVec, Vec4.add, Vec4.scale,
    Vec4.xyz, Vec3.add, Vec3.mk.injEq]
  refine ⟨?_, ?_, ?_⟩ <;> ring

/-- C1, evaluated: with the camera at (0, 0, 2) looking down -Z, the transparent command of mesh
101 (center z = -1) has a smaller projection on the forward direction than that of mesh 102
(center z = -5), yet render sorts and draws mesh 102 first. -/
theorem render_translated_camera_order :
    firstCamera translatedCameraWorld = some (sampleCameraRef ⟨0, 0, 2⟩) ∧
    dot ⟨0, 0, -1⟩ (forwardDirection (sampleCameraEntity ⟨0, 0, 2⟩)) <
      dot ⟨0, 0, -5⟩ (forwardDirection (sampleCameraEntity ⟨0, 0, 2⟩)) ∧
    (render sampleRenderer translatedCameraWorld).1.transparentCommands.map
        (fun c => (c.mesh, c.center)) = [(102, ⟨0, 0, -5⟩), (101, ⟨0, 0, -1⟩)] ∧
    meshDraws (render sampleRenderer translatedCameraWorld).2 = [102, 101] := by
  refine ⟨rfl, ?_, ?_, ?_⟩
  · norm_num [dot, forwardDirection, sampleCameraEntity, translate, Mat4.identity, Mat4.mulVec,
      Vec4.add, Vec4.scale, Vec4.xyz]
  · norm_num [render, translatedCameraWorld, sampleCameraEntity, sampleMeshEntity, collectStep,
      renderWithCamera, stdSort, insertSorted, transparentBefore, dot, translate, Mat4.identity,
      Mat4.mulVec, Vec4.add, Vec4.scale, Vec4.xyz, sampleRenderer, sampleMaterial, sampleCamera]
  · norm_num [render, translatedCameraWorld, sampleCameraEntity, sampleMeshEntity, collectStep,
      renderWithCamera, stdSort, insertSorted, transparentBefore, dot, translate, Mat4.identity,
      Mat4.mulVec, Vec4.add, Vec4.scale, Vec4.xyz, sampleRenderer, sampleMaterial, sampleCamera,
      meshDraws, drawCommand, drawSky, applyPostprocess]
    rfl

/-- C2, evaluated: with the camera at the origin looking down -Z, the transparent commands of
mesh 101 (center z = -5) and mesh 102 (center z = -1) are both in front of the camera and mesh
101 is the farther one along the view direction, yet render sorts and draws mesh 102, the
nearer one, first. -/
theorem render_draws_nearest_first :
    firstCamera originCameraWorld = some (sampleCameraRef ⟨0, 0, 0⟩) ∧
    0 < dot (Vec3.sub ⟨0, 0, -1⟩ (worldPosition (sampleCameraEntity ⟨0, 0, 0⟩)))
          (forwardDirection (sampleCameraEntity ⟨0, 0, 0⟩)) ∧
    dot (Vec3.sub ⟨0, 0, -1⟩ (worldPosition (sampleCameraEntity ⟨0, 0, 0⟩)))
          (forwardDirection (sampleCameraEntity ⟨0, 0, 0⟩)) <
      dot (Vec3.sub ⟨0, 0, -5⟩ (worldPosition (sampleCameraEntity ⟨0, 0, 0⟩)))
          (forwardDirection (sampleCameraEntity ⟨0, 0, 0⟩)) ∧
    (render sampleRenderer originCameraWorld).1.transparentCommands.map
        (fun c => (c.mesh, c.center)) = [(102, ⟨0, 0, -1⟩), (101, ⟨0, 0, -5⟩)] ∧
    meshDraws (render sampleRenderer originCameraWorld).2 = [102, 101] := by
  refine ⟨rfl, ?_, ?_, ?_, ?_⟩
  · norm_num [dot, Vec3.sub, worldPosition, forwardDirection, sampleCameraEntity, translate,
      Mat4.identity, Mat4.mulVec, Vec4.add, Vec4.scale, Vec4.xyz]
  · norm_num [dot, Vec3.sub, worldPosition, forwardDirection, sampleCameraEntity, translate,
      Mat4.identity, Mat4.mulVec, Vec4.add, Vec4.scale, Vec4.xyz]
  · norm_num [render, originCameraWorld, sampleCameraEntity, sampleMeshEntity, collectStep,
      renderWithCamera, stdSort, insertSorted, transparentBefore, dot, translate, Mat4.identity,
      Mat4.mulVec, Vec4.add, Vec4.scale, Vec4.xyz, sampleRenderer, sampleMaterial, sampleCamera]
  · norm_num [render, originCameraWorld, sampleCameraEntity, sampleMeshEntity, collectStep,
      renderWithCamera, stdSort, insertSorted, transparentBefore, dot, translate, Mat4.identity,
      Mat4.mulVec, Vec4.add, Vec4.scale, Vec4.xyz, sampleRenderer, sampleMaterial, sampleCamera,
      meshDraws, drawCommand, drawSky, applyPostprocess]
    rfl

/-- C8, evaluated: for a camera at local position (0, 0, 0) under a parent placed at (5, 0, 0),
the camera's world-space position is (5, 0, 0), but the value render sets for the uniform "eye"
of the lighted command is (0, 0, 0), the local position. -/
theorem render_eye_is_local_position :
    firstCamera childCameraWorld = some (sampleChildCameraRef ⟨5, 0, 0⟩) ∧
    worldPosition (sampleChildCameraEntity ⟨5, 0, 0⟩) = ⟨5, 0, 0⟩ ∧
    (render sampleRendererBoth childCameraWorld).1.lightedCommands.map (fun c => c.mesh) =
      [101] ∧
    eyeUniforms (render sampleRendererBoth childCameraWorld).2 = [⟨0, 0, 0⟩] := by
  refine ⟨rfl, ?_, ?_, ?_⟩
  · norm_num [worldPosition, sampleChildCameraEntity, translate, Mat4.identity, Mat4.mulVec,
      Vec4.add, Vec4.scale, Vec4.xyz]
  · norm_num [render, childCameraWorld, sampleMeshEntity, collectStep, renderWithCamera,
      stdSort, sampleRendererBoth, sampleMaterial, sampleCamera, sampleChildCameraEntity,
      sampleEmptyEntity, initializeRenderer, initializeSky, initializePostprocess,
      sampleConfigBoth, sampleRenderer]
  · norm_num [render, childCameraWorld, sampleMeshEntity, collectStep, renderWithCamera,
      stdSort, sampleRendererBoth, sampleMaterial, sampleCamera, sampleChildCameraEntity,
      sampleEmptyEntity, initializeRenderer, initializeSky, initializePostprocess,
      sampleConfigBoth, sampleRenderer, eyeUniforms, drawCommand, drawLighted, drawSky,
      applyPostprocess]
    rfl

/-- C10, as stated, fails: after initialize with the sky key, a second destroy directly after
the first releases the five sky objects again; and when initialize is entered twice before one
destroy, the sphere mesh created by the first initialize is never released. -/
theorem lifecycle_double_release_and_leak :
    released (destroy (runOps sampleBlank sampleRenderer 1
        [Op.callInitialize ⟨1280, 720⟩ sampleConfigSky, Op.callDestroy]).1) =
      [⟨ResourceKind.mesh, 1⟩, ⟨ResourceKind.shaderProgram, 2⟩, ⟨ResourceKind.texture, 3⟩,
       ⟨ResourceKind.sampler, 4⟩, ⟨ResourceKind.texturedMaterial, 5⟩] ∧
    ¬ (released (runOps sampleBlank sampleRenderer 1
        [Op.callInitialize ⟨1280, 720⟩ sampleConfigSky, Op.callDestroy,
         Op.callDestroy]).2.2).Nodup ∧
    (⟨ResourceKind.mesh, 1⟩ : Resource) ∈ created (runOps sampleBlank sampleRenderer 1
        [Op.callInitialize ⟨1280, 720⟩ sampleConfigSky,
         Op.callInitialize ⟨1280, 720⟩ sampleConfigSky, Op.callDestroy]).2.2 ∧
    (⟨ResourceKind.mesh, 1⟩ : Resource) ∉ released (runOps sampleBlank sampleRenderer 1
        [Op.callInitialize ⟨1280, 720⟩ sampleConfigSky,
         Op.callInitialize ⟨1280, 720⟩ sampleConfigSky, Op.callDestroy]).2.2 := by
  decide

/-! ## Instances of the theorems on concrete scenes -/

theorem render_without_camera_is_silent_witness :
    (∀ entity ∈ cameralessWorld, entity.camera = none) ∧
    ((render sampleRendererBoth cameralessWorld).2 = [] ∧
     boundFramebuffer 6 (render sampleRendererBoth cameralessWorld).2 = 6 ∧
     (renderRepeated 3 sampleRendererBoth cameralessWorld).2 = [] ∧
     boundFramebuffer 6 (renderRepeated 3 sampleRendererBoth cameralessWorld).2 = 6) :=
  ⟨by simp [cameralessWorld, sampleMeshEntity],
   render_without_camera_is_silent sampleRendererBoth cameralessWorld
     (by simp [cameralessWorld, sampleMeshEntity]) 3 6⟩

theorem render_postprocess_toggle_witness :
    firstCamera mixedWorld = some (sampleCameraRef ⟨0, 0, 0⟩) ∧
    (∀ postprocessMaterial, sampleRendererBoth.postprocessMaterial = some postprocessMaterial →
      ∃ before scene,
        (render sampleRendererBoth mixedWorld).2 =
          before ++
          [ Call.glBindFramebuffer GLenum.GL_DRAW_FRAMEBUFFER
              sampleRendererBoth.postprocessFrameBuffer,
            Call.glClear true true ] ++
          scene ++
          [ Call.glBindFramebuffer GLenum.GL_DRAW_FRAMEBUFFER 0,
            Call.glBindVertexArray sampleRendererBoth.postProcessVertexArray,
            Call.texturedMaterialSetup postprocessMaterial.obj,
            Call.glDrawArrays GLenum.GL_TRIANGLES 0 3 ] ∧
        meshDraws before = [] ∧
        (∀ call ∈ before,
          (∀ c d, call ≠ Call.glClear c d) ∧ (∀ t f, call ≠ Call.glBindFramebuffer t f) ∧
          (∀ m f c, call ≠ Call.glDrawArrays m f c)) ∧
        (∀ call ∈ scene,
          (∀ c d, call ≠ Call.glClear c d) ∧ (∀ t f, call ≠ Call.glBindFramebuffer t f) ∧
          (∀ m f c, call ≠ Call.glDrawArrays m f c)) ∧
        meshDraws scene = meshDraws (render sampleRendererBoth mixedWorld).2 ∧
        ∀ bound, boundFramebuffer bound (render sampleRendererBoth mixedWorld).2 = 0) ∧
    (sampleRendererBoth.postprocessMaterial = none →
      (∀ t f, Call.glBindFramebuffer t f ∉ (render sampleRendererBoth mixedWorld).2) ∧
      (∀ m f c, Call.glDrawArrays m f c ∉ (render sampleRendererBoth mixedWorld).2)) :=
  ⟨rfl, render_postprocess_toggle sampleRendererBoth mixedWorld (sampleCameraRef ⟨0, 0, 0⟩) rfl⟩

theorem sky_depth_is_far_plane_witness :
    ((Mat4.identity.mul (translate Mat4.identity ⟨1, 2, 3⟩)).mulVec ⟨0, 0, 1, 1⟩).w ≠ 0 ∧
    ((∀ v : Vec4, alwaysBehindTransform.mulVec v = ⟨v.x, v.y, v.w, v.w⟩) ∧
     ((skyTransform Mat4.identity ⟨1, 2, 3⟩).mulVec ⟨0, 0, 1, 1⟩).z /
        ((skyTransform Mat4.identity ⟨1, 2, 3⟩).mulVec ⟨0, 0, 1, 1⟩).w = 1 ∧
     ((skyTransform Mat4.identity ⟨1, 2, 3⟩).mulVec ⟨0, 0, 1, 1⟩).x =
      ((Mat4.identity.mul (translate Mat4.identity ⟨1, 2, 3⟩)).mulVec ⟨0, 0, 1, 1⟩).x ∧
     ((skyTransform Mat4.identity ⟨1, 2, 3⟩).mulVec ⟨0, 0, 1, 1⟩).y =
      ((Mat4.identity.mul (translate Mat4.identity ⟨1, 2, 3⟩)).mulVec ⟨0, 0, 1, 1⟩).y ∧
     ((skyTransform Mat4.identity ⟨1, 2, 3⟩).mulVec ⟨0, 0, 1, 1⟩).w =
      ((Mat4.identity.mul (translate Mat4.identity ⟨1, 2, 3⟩)).mulVec ⟨0, 0, 1, 1⟩).w) :=
  ⟨by norm_num [Mat4.mul, Mat4.mulVec, Mat4.identity, translate, Vec4.add, Vec4.scale],
   sky_depth_is_far_plane Mat4.identity ⟨1, 2, 3⟩ ⟨0, 0, 1, 1⟩
     (by norm_num [Mat4.mul, Mat4.mulVec, Mat4.identity, translate, Vec4.add, Vec4.scale])⟩

theorem initialize_destroy_symmetry_witness :
    sampleRenderer.skyMaterial = none ∧ sampleRenderer.postprocessMaterial = none ∧
    ((created (initializeRenderer sampleBlank sampleRenderer 1 ⟨1280, 720⟩
        sampleConfigBoth).2.2).map (fun r => r.kind) =
      (if sampleConfigBoth.sky.isSome then
        [ResourceKind.mesh, ResourceKind.shaderProgram, ResourceKind.texture,
         ResourceKind.sampler, ResourceKind.texturedMaterial]
       else []) ++
      (if sampleConfigBoth.postprocess.isSome then
        [ResourceKind.framebuffer, ResourceKind.texture, ResourceKind.texture,
         ResourceKind.vertexArray, ResourceKind.sampler, ResourceKind.shaderProgram,
         ResourceKind.texturedMaterial]
       else []) ∧
     (created (initializeRenderer sampleBlank sampleRenderer 1 ⟨1280, 720⟩
        sampleConfigBoth).2.2).Nodup ∧
     (released (destroy (initializeRenderer sampleBlank sampleRenderer 1 ⟨1280, 720⟩
        sampleConfigBoth).1)).Nodup ∧
     (released (destroy (initializeRenderer sampleBlank sampleRenderer 1 ⟨1280, 720⟩
        sampleConfigBoth).1)).Perm
      (created (initializeRenderer sampleBlank sampleRenderer 1 ⟨1280, 720⟩
        sampleConfigBoth).2.2)) :=
  ⟨rfl, rfl,
   initialize_destroy_symmetry sampleBlank sampleRenderer 1 ⟨1280, 720⟩ sampleConfigBoth
     rfl rfl⟩

theorem lifecycle_rounds_release_once_witness :
    sampleRenderer.skyMaterial = none ∧ sampleRenderer.postprocessMaterial = none ∧
    configsGrow false false
      [(⟨1280, 720⟩, sampleConfigSky), (⟨800, 600⟩, sampleConfigBoth)] = true ∧
    ((released (runOps sampleBlank sampleRenderer 1
        (roundsOps 2 [(⟨1280, 720⟩, sampleConfigSky), (⟨800, 600⟩, sampleConfigBoth)])).2.2).Nodup ∧
     (released (runOps sampleBlank sampleRenderer 1
        (roundsOps 2 [(⟨1280, 720⟩, sampleConfigSky), (⟨800, 600⟩, sampleConfigBoth)])).2.2).Perm
      (created (runOps sampleBlank sampleRenderer 1
        (roundsOps 2 [(⟨1280, 720⟩, sampleConfigSky), (⟨800, 600⟩, sampleConfigBoth)])).2.2)) :=
  ⟨rfl, rfl, by decide,
   lifecycle_rounds_release_once sampleBlank sampleRenderer 1 2
     [(⟨1280, 720⟩, sampleConfigSky), (⟨800, 600⟩, sampleConfigBoth)] rfl rfl (by decide)⟩

end our
